import Mathlib

/-!
# Verification of the payzcore python-sdk webhook and transport core

Shallow embedding of `payzcore/webhook.py`, `payzcore/client.py` and
`payzcore/errors.py`. Pure Python functions become Lean functions; Python
exceptions become `Except` values; the wall clock read by
`datetime.now(timezone.utc)` becomes an explicit rational parameter `now`
(seconds since the Unix epoch); the `logging` side channel of
`parse_webhook` becomes an explicit list of warning strings in its result.
Machine words of SHA-256 are naturals reduced modulo `2 ^ 32`.
-/

/-! ## Bytes, SHA-256, HMAC (models of `hashlib.sha256` / `hmac.new`) -/

def w32 : Nat := 4294967296

def add32 (a b : Nat) : Nat := (a + b) % w32

def rotr32 (n x : Nat) : Nat := x / 2 ^ n + (x % 2 ^ n) * 2 ^ (32 - n)

def shr32 (n x : Nat) : Nat := x / 2 ^ n

def not32 (x : Nat) : Nat := Nat.xor x (w32 - 1)

def xor3 (a b c : Nat) : Nat := Nat.xor (Nat.xor a b) c

def chFn (e f g : Nat) : Nat := Nat.xor (Nat.land e f) (Nat.land (not32 e) g)

def majFn (a b c : Nat) : Nat := xor3 (Nat.land a b) (Nat.land a c) (Nat.land b c)

def bigSigma0 (x : Nat) : Nat := xor3 (rotr32 2 x) (rotr32 13 x) (rotr32 22 x)

def bigSigma1 (x : Nat) : Nat := xor3 (rotr32 6 x) (rotr32 11 x) (rotr32 25 x)

def smallSigma0 (x : Nat) : Nat := xor3 (rotr32 7 x) (rotr32 18 x) (shr32 3 x)

def smallSigma1 (x : Nat) : Nat := xor3 (rotr32 17 x) (rotr32 19 x) (shr32 10 x)

/-- Integer square root by bisection (largest `k` with `k ^ 2 ≤ n`); the last
argument is fuel bounding the recursion depth, `n + 2` always suffices. -/
def isqrtGo (n : Nat) : Nat → Nat → Nat → Nat
  | _, lo, 0 => lo
  | hi, lo, fuel + 1 =>
    if hi ≤ lo + 1 then lo
    else
      let mid := (lo + hi) / 2
      if mid ^ 2 ≤ n then isqrtGo n hi mid fuel else isqrtGo n mid lo fuel

def isqrt (n : Nat) : Nat := isqrtGo n (n + 1) 0 (n + 2)

/-- Integer cube root by bisection (largest `k` with `k ^ 3 ≤ n`). -/
def icbrtGo (n : Nat) : Nat → Nat → Nat → Nat
  | _, lo, 0 => lo
  | hi, lo, fuel + 1 =>
    if hi ≤ lo + 1 then lo
    else
      let mid := (lo + hi) / 2
      if mid ^ 3 ≤ n then icbrtGo n hi mid fuel else icbrtGo n mid lo fuel

def icbrt (n : Nat) : Nat := icbrtGo n (n + 1) 0 (n + 2)

/-- The first 64 primes; FIPS 180-4 derives the SHA-256 constants from them. -/
def primes64 : List Nat :=
  [2, 3, 5, 7, 11, 13, 17, 19, 23, 29, 31, 37, 41, 43, 47, 53,
   59, 61, 67, 71, 73, 79, 83, 89, 97, 101, 103, 107, 109, 113, 127, 131,
   137, 139, 149, 151, 157, 163, 167, 173, 179, 181, 191, 193, 197, 199, 211, 223,
   227, 229, 233, 239, 241, 251, 257, 263, 269, 271, 277, 281, 283, 293, 307, 311]

/-- SHA-256 round constants: fractional bits of cube roots of the first 64 primes. -/
def K256 : List Nat := primes64.map (fun p => icbrt (p * 2 ^ 96) % w32)

/-- SHA-256 initial state: fractional bits of square roots of the first 8 primes. -/
def H256 : List Nat := (primes64.take 8).map (fun p => isqrt (p * 2 ^ 64) % w32)

def scheduleStep (w : List Nat) : List Nat :=
  let n := w.length
  w ++ [add32 (add32 (smallSigma1 (w.getD (n - 2) 0)) (w.getD (n - 7) 0))
              (add32 (smallSigma0 (w.getD (n - 15) 0)) (w.getD (n - 16) 0))]

def fullSchedule (w16 : List Nat) : List Nat :=
  (List.range 48).foldl (fun w _ => scheduleStep w) w16

def roundStep (st : List Nat) (kw : Nat × Nat) : List Nat :=
  match st with
  | [a, b, c, d, e, f, g, h] =>
    let t1 := add32 h (add32 (bigSigma1 e) (add32 (chFn e f g) (add32 kw.1 kw.2)))
    let t2 := add32 (bigSigma0 a) (majFn a b c)
    [add32 t1 t2, a, b, c, add32 d t1, e, f, g]
  | _ => st

def compress (h : List Nat) (block : List Nat) : List Nat :=
  let st := (K256.zip (fullSchedule block)).foldl roundStep h
  (h.zip st).map (fun p => add32 p.1 p.2)

def bytesToWords : List Nat → List Nat
  | b0 :: b1 :: b2 :: b3 :: rest =>
    (((b0 * 256 + b1) * 256 + b2) * 256 + b3) :: bytesToWords rest
  | _ => []

def lenBytes (n : Nat) : List Nat :=
  [n / 2 ^ 56 % 256, n / 2 ^ 48 % 256, n / 2 ^ 40 % 256, n / 2 ^ 32 % 256,
   n / 2 ^ 24 % 256, n / 2 ^ 16 % 256, n / 2 ^ 8 % 256, n % 256]

def padBytes (msg : List Nat) : List Nat :=
  let l := msg.length
  msg ++ [128] ++ List.replicate ((119 - l % 64) % 64) 0 ++ lenBytes (8 * l)

def chunk16 : Nat → List Nat → List (List Nat)
  | 0, _ => []
  | _, [] => []
  | fuel + 1, ws => ws.take 16 :: chunk16 fuel (ws.drop 16)

def wordsToBytes (ws : List Nat) : List Nat :=
  (ws.map (fun w => [w / 2 ^ 24 % 256, w / 2 ^ 16 % 256, w / 2 ^ 8 % 256, w % 256])).flatten

def sha256 (msg : List Nat) : List Nat :=
  let ws := bytesToWords (padBytes msg)
  wordsToBytes ((chunk16 ws.length ws).foldl compress H256)

def hexChar (n : Nat) : Char :=
  if n < 10 then Char.ofNat (48 + n) else Char.ofNat (87 + n)

def byteHexChars (b : Nat) : List Char := [hexChar (b / 16 % 16), hexChar (b % 16)]

/-- Model of `.hexdigest()`: lowercase hex rendering of a byte list. -/
def bytesToHex (bs : List Nat) : String := ⟨(bs.map byteHexChars).flatten⟩

/-- UTF-8 encoding of one code point, model of `str.encode("utf-8")` per char. -/
def utf8Enc (c : Nat) : List Nat :=
  if c < 128 then [c]
  else if c < 2048 then [192 + c / 64, 128 + c % 64]
  else if c < 65536 then [224 + c / 4096, 128 + c / 64 % 64, 128 + c % 64]
  else [240 + c / 262144, 128 + c / 4096 % 64, 128 + c / 64 % 64, 128 + c % 64]

/-- Model of `str.encode("utf-8")`. -/
def strBytes (s : String) : List Nat := (s.data.map (fun ch => utf8Enc ch.toNat)).flatten

/-- Model of `hmac.new(key, msg, hashlib.sha256).digest()` (RFC 2104, block 64). -/
def hmacSha256 (key msg : List Nat) : List Nat :=
  let k0 := if key.length > 64 then sha256 key else key
  let k1 := k0 ++ List.replicate (64 - k0.length) 0
  sha256 ((k1.map (fun b => Nat.xor b 92)) ++
          sha256 ((k1.map (fun b => Nat.xor b 54)) ++ msg))

def hmacSha256Hex (key msg : List Nat) : String := bytesToHex (hmacSha256 key msg)

/-! ## Python exceptions -/

/-- The Python exceptions the embedded code can raise or catch.
`webhookSignatureError` is `errors.WebhookSignatureError`; `transportError`
stands for any `httpx` transport-level exception carried by value. -/
inductive PyExc where
  | typeError
  | valueError
  | attributeError
  | keyError (key : String)
  | jsonDecodeError
  | transportError (msg : String)
  | webhookSignatureError (msg : String)
deriving DecidableEq

/-! ## `datetime.fromisoformat` model

Model of the subset of ISO-8601 accepted by every supported CPython version:
`YYYY-MM-DD[<sep>HH[:MM[:SS[.ffffff]]][±HH:MM]]` with a fully validated
calendar date and time of day.  Fractions of 1–6 digits are accepted.  A
parsed value records the naive seconds-since-epoch of its components and the
UTC offset when one was given (`offset = none` models a naive datetime). -/

structure PyDateTime where
  naive : ℚ
  offset : Option Int
deriving DecidableEq

def digitVal (c : Char) : Option Nat :=
  if c.isDigit then some (c.toNat - 48) else none

def parse2 : List Char → Option (Nat × List Char)
  | a :: b :: rest => do
    let x ← digitVal a
    let y ← digitVal b
    pure (10 * x + y, rest)
  | _ => none

def parse4 : List Char → Option (Nat × List Char)
  | a :: b :: c :: d :: rest => do
    let x ← digitVal a
    let y ← digitVal b
    let z ← digitVal c
    let u ← digitVal d
    pure (1000 * x + 100 * y + 10 * z + u, rest)
  | _ => none

def expectChar (c : Char) : List Char → Option (List Char)
  | d :: rest => if d = c then some rest else none
  | [] => none

def digitsToNat (ds : List Char) : Nat := ds.foldl (fun a c => 10 * a + (c.toNat - 48)) 0

def parseFrac (cs : List Char) : Option (ℚ × List Char) :=
  let ds := cs.takeWhile Char.isDigit
  if ds.length = 0 ∨ ds.length > 6 then none
  else some ((digitsToNat ds : ℚ) / (10 : ℚ) ^ ds.length, cs.drop ds.length)

def isLeap (y : Nat) : Bool := y % 4 == 0 && (y % 100 != 0 || y % 400 == 0)

def daysInMonth (y mo : Nat) : Nat :=
  (List.getD [31, if isLeap y then 29 else 28, 31, 30, 31, 30, 31, 31, 30, 31, 30, 31]
    (mo - 1) 0)

/-- Days since 1970-01-01 of a civil date (Gregorian, proleptic); the standard
era/year-of-era computation, valid for the validated range `1 ≤ y ≤ 9999`. -/
def epochDays (y mo d : Nat) : Int :=
  let yShift := if mo ≤ 2 then y - 1 else y
  let era := yShift / 400
  let yoe := yShift % 400
  let mp := (mo + 9) % 12
  let doy := (153 * mp + 2) / 5 + d - 1
  let doe := yoe * 365 + yoe / 4 - yoe / 100 + doy
  ((era * 146097 + doe : Nat) : Int) - 719468

def parseSecFrac (cs : List Char) : Option (Nat × ℚ × List Char) :=
  match cs with
  | ':' :: cs1 =>
    match parse2 cs1 with
    | none => none
    | some (ss, cs2) =>
      match cs2 with
      | '.' :: cs3 =>
        match parseFrac cs3 with
        | none => none
        | some (fr, cs4) => some (ss, fr, cs4)
      | _ => some (ss, 0, cs2)
  | _ => some (0, 0, cs)

def parseMinSec (cs : List Char) : Option (Nat × Nat × ℚ × List Char) :=
  match cs with
  | ':' :: cs1 =>
    match parse2 cs1 with
    | none => none
    | some (mi, cs2) =>
      match parseSecFrac cs2 with
      | none => none
      | some (ss, fr, cs3) => some (mi, ss, fr, cs3)
  | _ => some (0, 0, 0, cs)

def parseOffsetHM (cs : List Char) : Option (Nat × List Char) := do
  let (oh, cs1) ← parse2 cs
  let cs2 ← expectChar ':' cs1
  let (om, cs3) ← parse2 cs2
  if oh ≤ 23 ∧ om ≤ 59 then pure (oh * 3600 + om * 60, cs3) else none

def parseOffsetPart (cs : List Char) : Option (Int × List Char) :=
  match cs with
  | '+' :: cs1 => (parseOffsetHM cs1).map (fun p => ((p.1 : Int), p.2))
  | '-' :: cs1 => (parseOffsetHM cs1).map (fun p => (-(p.1 : Int), p.2))
  | _ => none

def parseISO (s : String) : Option PyDateTime := do
  let (y, cs1) ← parse4 s.data
  let cs2 ← expectChar '-' cs1
  let (mo, cs3) ← parse2 cs2
  let cs4 ← expectChar '-' cs3
  let (d, cs5) ← parse2 cs4
  if 1 ≤ y ∧ 1 ≤ mo ∧ mo ≤ 12 ∧ 1 ≤ d ∧ d ≤ daysInMonth y mo then
    match cs5 with
    | [] => some ⟨(epochDays y mo d : ℚ) * 86400, none⟩
    | _sep :: cs6 => do
      let (hh, cs7) ← parse2 cs6
      let (mi, ss, fr, cs8) ← parseMinSec cs7
      if hh ≤ 23 ∧ mi ≤ 59 ∧ ss ≤ 59 then
        let naive := (epochDays y mo d : ℚ) * 86400 + ((hh * 3600 + mi * 60 + ss : Nat) : ℚ) + fr
        match cs8 with
        | [] => some ⟨naive, none⟩
        | rest => do
          let (off, cs9) ← parseOffsetPart rest
          match cs9 with
          | [] => some ⟨naive, some off⟩
          | _ => none
      else none
  else none

/-! ## `webhook.verify_signature` -/

def strIsAscii (s : String) : Bool := s.data.all (fun c => c.toNat < 128)

/-- Model of `hmac.compare_digest` on `str` arguments: equality on ASCII-only
strings, `TypeError` when either side holds a non-ASCII character (its
timing behaviour is outside the embedding). -/
def compareDigest (a b : String) : Except PyExc Bool :=
  if strIsAscii a && strIsAscii b then .ok (a == b) else .error .typeError

/-- `webhook.verify_signature`.  `now` is the value `datetime.now(timezone.utc)`
reads, as rational seconds since the epoch.  A parsed timestamp without
offset models a naive datetime, whose subtraction from aware `now` raises
`TypeError`, caught by the source and turned into `False`. -/
def verify_signature (now : ℚ) (body signature secret : String)
    (timestamp : Option String) (toleranceSeconds : Int) : Except PyExc Bool :=
  if secret = "" ∨ signature = "" ∨ body = "" then .ok false
  else
    match timestamp with
    | none => .ok false
    | some ts =>
      if ts = "" then .ok false
      else
        match parseISO (ts.replace ("Z") ("+00:00")) with
        | none => .ok false
        | some dt =>
          match dt.offset with
          | none => .ok false
          | some off =>
            if |now - (dt.naive - (off : ℚ))| > (toleranceSeconds : ℚ) then .ok false
            else
              compareDigest signature
                (hmacSha256Hex (strBytes secret) (strBytes (ts ++ ".") ++ strBytes body))

/-! ## JSON values and `json.loads`

Python values produced by `json.loads`: `null` is Python `None`, numbers are
modelled as rationals (the int/float distinction and the non-finite literals
`NaN`/`Infinity` are outside the model; no claim touches numeric values).
Duplicate object keys follow Python dict semantics: the last wins, which
`dictFind` implements. -/

inductive Json where
  | null
  | bool (b : Bool)
  | num (q : ℚ)
  | str (s : String)
  | arr (items : List Json)
  | obj (members : List (String × Json))

def jsonWs (cs : List Char) : List Char :=
  cs.dropWhile (fun c => c == ' ' || c == '\t' || c == '\n' || c == '\r')

def hexVal (c : Char) : Option Nat :=
  if '0' ≤ c ∧ c ≤ '9' then some (c.toNat - 48)
  else if 'a' ≤ c ∧ c ≤ 'f' then some (c.toNat - 87)
  else if 'A' ≤ c ∧ c ≤ 'F' then some (c.toNat - 55)
  else none

def hex4 : List Char → Option (Nat × List Char)
  | a :: b :: c :: d :: rest => do
    let x ← hexVal a
    let y ← hexVal b
    let z ← hexVal c
    let u ← hexVal d
    pure (4096 * x + 256 * y + 16 * z + u, rest)
  | _ => none

def escChar (e : Char) : Option Char :=
  if e = '"' then some '"'
  else if e = '\\' then some '\\'
  else if e = '/' then some '/'
  else if e = 'b' then some (Char.ofNat 8)
  else if e = 'f' then some (Char.ofNat 12)
  else if e = 'n' then some (Char.ofNat 10)
  else if e = 'r' then some (Char.ofNat 13)
  else if e = 't' then some (Char.ofNat 9)
  else none

/-- JSON string body after the opening quote: content characters and the rest
after the closing quote.  Surrogate pairs in `\u` escapes are combined; a
lone surrogate (representable in a Python `str`, not in a Lean `Char`) falls
back to `Char.ofNat`'s default — no claim exercises that corner.  Raw control
characters below 0x20 are rejected as in Python's strict default. -/
def parseJStringGo : Nat → List Char → Option (List Char × List Char)
  | 0, _ => none
  | fuel + 1, cs =>
    match cs with
    | [] => none
    | '"' :: rest => some ([], rest)
    | '\\' :: rest =>
      (match rest with
       | [] => none
       | e :: rest1 =>
         if e = 'u' then
           match hex4 rest1 with
           | none => none
           | some (v, rest2) =>
             if 55296 ≤ v ∧ v < 56320 then
               match rest2 with
               | '\\' :: 'u' :: rest3 =>
                 (match hex4 rest3 with
                  | some (w, rest4) =>
                    if 56320 ≤ w ∧ w < 57344 then
                      (parseJStringGo fuel rest4).map
                        (fun p => (Char.ofNat (65536 + (v - 55296) * 1024 + (w - 56320)) :: p.1, p.2))
                    else (parseJStringGo fuel rest2).map (fun p => (Char.ofNat v :: p.1, p.2))
                  | none => (parseJStringGo fuel rest2).map (fun p => (Char.ofNat v :: p.1, p.2)))
               | _ => (parseJStringGo fuel rest2).map (fun p => (Char.ofNat v :: p.1, p.2))
             else (parseJStringGo fuel rest2).map (fun p => (Char.ofNat v :: p.1, p.2))
         else
           match escChar e with
           | none => none
           | some c => (parseJStringGo fuel rest1).map (fun p => (c :: p.1, p.2)))
    | c :: rest =>
      if c.toNat < 32 then none
      else (parseJStringGo fuel rest).map (fun p => (c :: p.1, p.2))

def parseFracPart (cs : List Char) : Option (ℚ × List Char) :=
  match cs with
  | '.' :: r =>
    let fds := r.takeWhile Char.isDigit
    if fds.length = 0 then none
    else some ((digitsToNat fds : ℚ) / (10 : ℚ) ^ fds.length, r.drop fds.length)
  | _ => some (0, cs)

def parseExpDigits (cs : List Char) : Option (Int × List Char) :=
  let (eneg, cs1) := match cs with
    | '-' :: r => (true, r)
    | '+' :: r => (false, r)
    | _ => (false, cs)
  let eds := cs1.takeWhile Char.isDigit
  if eds.length = 0 then none
  else some ((if eneg then -(digitsToNat eds : Int) else (digitsToNat eds : Int)), cs1.drop eds.length)

def parseExpPart (cs : List Char) : Option (Int × List Char) :=
  match cs with
  | 'e' :: r => parseExpDigits r
  | 'E' :: r => parseExpDigits r
  | _ => some (0, cs)

def parseJNumber (cs : List Char) : Option (ℚ × List Char) :=
  let (neg, cs1) := match cs with
    | '-' :: r => (true, r)
    | _ => (false, cs)
  let ids := cs1.takeWhile Char.isDigit
  if ids.length = 0 then none
  else if ids.headD '0' = '0' ∧ 1 < ids.length then none
  else
    match parseFracPart (cs1.drop ids.length) with
    | none => none
    | some (fr, cs2) =>
      match parseExpPart cs2 with
      | none => none
      | some (ex, cs3) =>
        let mag : ℚ := ((digitsToNat ids : ℚ) + fr) * (10 : ℚ) ^ ex
        some ((if neg then -mag else mag), cs3)

/-- Array items after a leading non-`]` position; `pv` parses one value.
The fuel only bounds the number of items. -/
def arrItemsGo (pv : List Char → Option (Json × List Char)) :
    Nat → List Char → Option (List Json × List Char)
  | 0, _ => none
  | lf + 1, cs =>
    match pv cs with
    | none => none
    | some (v, rest) =>
      match jsonWs rest with
      | ',' :: rest2 => (arrItemsGo pv lf rest2).map (fun p => (v :: p.1, p.2))
      | ']' :: rest2 => some ([v], rest2)
      | _ => none

/-- Object members after a leading non-`}` position. -/
def objMembersGo (pv : List Char → Option (Json × List Char)) :
    Nat → List Char → Option (List (String × Json) × List Char)
  | 0, _ => none
  | lf + 1, cs =>
    match jsonWs cs with
    | '"' :: rest =>
      (match parseJStringGo (rest.length + 1) rest with
       | none => none
       | some (kcs, rest1) =>
         match jsonWs rest1 with
         | ':' :: rest3 =>
           (match pv rest3 with
            | none => none
            | some (v, rest4) =>
              match jsonWs rest4 with
              | ',' :: rest6 => (objMembersGo pv lf rest6).map (fun p => ((⟨kcs⟩, v) :: p.1, p.2))
              | '}' :: rest6 => some ([(⟨kcs⟩, v)], rest6)
              | _ => none)
         | _ => none)
    | _ => none

/-- One JSON value (leading whitespace skipped), by explicit recursion on a
depth fuel so that the kernel can evaluate it; `s.length + 1` fuel always
suffices since each nesting level consumes at least one character. -/
def parseJValue (fuel : Nat) : List Char → Option (Json × List Char) :=
  Nat.rec (motive := fun _ => List Char → Option (Json × List Char))
    (fun _ => none)
    (fun _ ih cs0 =>
      match jsonWs cs0 with
      | '"' :: rest => (parseJStringGo (rest.length + 1) rest).map (fun p => (Json.str ⟨p.1⟩, p.2))
      | '[' :: rest =>
        (match jsonWs rest with
         | ']' :: rest2 => some (Json.arr [], rest2)
         | rest1 => (arrItemsGo ih (rest1.length + 1) rest1).map (fun p => (Json.arr p.1, p.2)))
      | '{' :: rest =>
        (match jsonWs rest with
         | '}' :: rest2 => some (Json.obj [], rest2)
         | rest1 => (objMembersGo ih (rest1.length + 1) rest1).map (fun p => (Json.obj p.1, p.2)))
      | 't' :: 'r' :: 'u' :: 'e' :: rest => some (Json.bool true, rest)
      | 'f' :: 'a' :: 'l' :: 's' :: 'e' :: rest => some (Json.bool false, rest)
      | 'n' :: 'u' :: 'l' :: 'l' :: rest => some (Json.null, rest)
      | cs => (parseJNumber cs).map (fun p => (Json.num p.1, p.2)))
    fuel

/-- Model of `json.loads`: `none` is `json.JSONDecodeError`. -/
def jsonLoads (s : String) : Option Json :=
  match parseJValue (s.length + 1) s.data with
  | none => none
  | some (v, rest) => if jsonWs rest = [] then some v else none

/-- Python `dict` lookup on parsed members: the last duplicate key wins. -/
def dictFind (kvs : List (String × Json)) (k : String) : Option Json :=
  kvs.foldl (fun acc p => if p.1 = k then some p.2 else acc) none

/-! ## `webhook.parse_webhook` and `webhook.construct_event` -/

def SUPPORTED_NETWORKS : List String := ["TRC20", "BEP20", "ERC20", "POLYGON", "ARBITRUM"]

def SUPPORTED_TOKENS : List String := ["USDT", "USDC"]

/-- Python truthiness of a JSON-decoded value. -/
def jsonTruthy : Json → Bool
  | .null => false
  | .bool b => b
  | .num q => !(q == 0)
  | .str s => !(s == "")
  | .arr l => !l.isEmpty
  | .obj l => !l.isEmpty

/-- Python `value in list_of_strings`: elementwise `==`, never true for
non-string values. -/
def jsonInStrList (v : Json) (l : List String) : Bool :=
  match v with
  | .str s => l.contains s
  | _ => false

/-- `TypedDict` shape of `types.WebhookPayload`: the five trailing fields are
present-or-absent (set only when the raw value `is not None`), the rest are
always set by `parse_webhook`. -/
structure WebhookPayload where
  event : Json
  payment_id : Json
  external_ref : Json
  network : Json
  token : Json
  address : Json
  expected_amount : Json
  paid_amount : Json
  tx_hash : Json
  status : Json
  paid_at : Json
  metadata : Json
  timestamp : Json
  external_order_id : Option Json
  buyer_email : Option Json
  buyer_name : Option Json
  buyer_note : Option Json
  payment_link_id : Option Json
  payment_link_slug : Option Json

/-- `payload[k] = raw[k]` guarded by `raw.get(k) is not None`: absent when the
key is missing or its value is JSON `null`. -/
def optJField (kvs : List (String × Json)) (k : String) : Option Json :=
  match dictFind kvs k with
  | some v =>
    (match v with
     | .null => none
     | _ => some v)
  | none => none

/-- `webhook.parse_webhook`.  The `logger.warning` side channel is returned as
a list of (format string, argument) pairs.  A JSON body that is not an object
makes `raw.get` raise `AttributeError`, uncaught in the source. -/
def parse_webhook (body : String) :
    Except PyExc (WebhookPayload × List (String × Json)) :=
  match jsonLoads body with
  | none => .error .jsonDecodeError
  | some raw =>
    match raw with
    | .obj kvs =>
      let network := (dictFind kvs ("network")).getD (.str (""))
      let w1 := if jsonTruthy network && !(jsonInStrList network SUPPORTED_NETWORKS)
                then [(("[PayzCore] Unknown network in webhook: %s"), network)] else []
      let token := (dictFind kvs ("token")).getD (.str (""))
      let w2 := if jsonTruthy token && !(jsonInStrList token SUPPORTED_TOKENS)
                then [(("[PayzCore] Unknown token in webhook: %s"), token)] else []
      match dictFind kvs ("event") with
      | none => .error (.keyError ("event"))
      | some ev =>
        match dictFind kvs ("payment_id") with
        | none => .error (.keyError ("payment_id"))
        | some pid =>
          match dictFind kvs ("external_ref") with
          | none => .error (.keyError ("external_ref"))
          | some xref =>
            match dictFind kvs ("network") with
            | none => .error (.keyError ("network"))
            | some nw =>
              match dictFind kvs ("address") with
              | none => .error (.keyError ("address"))
              | some addr =>
                match dictFind kvs ("expected_amount") with
                | none => .error (.keyError ("expected_amount"))
                | some ea =>
                  match dictFind kvs ("paid_amount") with
                  | none => .error (.keyError ("paid_amount"))
                  | some pa =>
                    match dictFind kvs ("status") with
                    | none => .error (.keyError ("status"))
                    | some st =>
                      match dictFind kvs ("timestamp") with
                      | none => .error (.keyError ("timestamp"))
                      | some tsv =>
                        .ok ({ event := ev
                             , payment_id := pid
                             , external_ref := xref
                             , network := nw
                             , token := (dictFind kvs ("token")).getD (.str ("USDT"))
                             , address := addr
                             , expected_amount := ea
                             , paid_amount := pa
                             , tx_hash := (dictFind kvs ("tx_hash")).getD .null
                             , status := st
                             , paid_at := (dictFind kvs ("paid_at")).getD .null
                             , metadata := (dictFind kvs ("metadata")).getD (.obj [])
                             , timestamp := tsv
                             , external_order_id := optJField kvs ("external_order_id")
                             , buyer_email := optJField kvs ("buyer_email")
                             , buyer_name := optJField kvs ("buyer_name")
                             , buyer_note := optJField kvs ("buyer_note")
                             , payment_link_id := optJField kvs ("payment_link_id")
                             , payment_link_slug := optJField kvs ("payment_link_slug")
                             }, w1 ++ w2)
    | _ => .error .attributeError

/-- `webhook.construct_event`: verify, then parse; only `json.JSONDecodeError`
is converted to `WebhookSignatureError("Invalid webhook payload")` — every
other exception of `parse_webhook` (and of `verify_signature`) propagates. -/
def construct_event (now : ℚ) (body signature secret : String)
    (timestamp : Option String) (toleranceSeconds : Int) :
    Except PyExc (WebhookPayload × List (String × Json)) :=
  match verify_signature now body signature secret timestamp toleranceSeconds with
  | .error e => .error e
  | .ok false => .error (.webhookSignatureError ("Webhook signature verification failed"))
  | .ok true =>
    match parse_webhook body with
    | .ok r => .ok r
    | .error .jsonDecodeError => .error (.webhookSignatureError ("Invalid webhook payload"))
    | .error e => .error e

/-! ## `errors.py` and `client.py` -/

/-- `errors.PayzCoreError` and its subclasses, collapsed into one record: the
subclass is recoverable from `code`.  `message` is kept as the raw JSON value
`body.get("error", ...)` produced (the source never coerces it), `details` is
the raw `body.get("details")` value (`null` models Python `None`). -/
structure PayzCoreError where
  message : Json
  status : Nat
  code : String
  details : Json := Json.null
  retryAfter : Option Int := none
  isDaily : Bool := false

def ValidationError (message : Json) (details : Json) : PayzCoreError :=
  { message := message, status := 400, code := ("validation_error"), details := details }

def AuthenticationError (message : Json) : PayzCoreError :=
  { message := message, status := 401, code := ("authentication_error") }

def ForbiddenError (message : Json) : PayzCoreError :=
  { message := message, status := 403, code := ("forbidden") }

def NotFoundError (message : Json) : PayzCoreError :=
  { message := message, status := 404, code := ("not_found") }

def IdempotencyError (message : Json) : PayzCoreError :=
  { message := message, status := 409, code := ("idempotency_error") }

def RateLimitError (message : Json) (retryAfter : Option Int) (isDaily : Bool) : PayzCoreError :=
  { message := message, status := 429, code := ("rate_limit_error"),
    retryAfter := retryAfter, isDaily := isDaily }

/-- An HTTP response as `client.py` consumes it: status code, the result of
`.json()` (`none` models a body that is not valid JSON, where `.json()`
raises), the reason phrase, and the headers. -/
structure Response where
  status : Nat
  jsonBody : Option Json
  reasonPhrase : String
  headers : List (String × String)

/-- `httpx` header lookup (case-insensitive on names). -/
def headerGet (hs : List (String × String)) (k : String) : Option String :=
  (hs.find? (fun p => p.1.toLower == k.toLower)).map (fun p => p.2)

def natDigitsVal (cs : List Char) : Option Nat :=
  if cs.isEmpty || !(cs.all Char.isDigit) then none else some (digitsToNat cs)

/-- Python `int(s)` on a `str`: optional surrounding whitespace, optional
sign, decimal digits; `none` models `ValueError`.  (Python additionally
accepts underscore digit grouping, omitted here.) -/
def pyInt (s : String) : Option Int :=
  match s.trim.data with
  | [] => none
  | c :: rest =>
    if c = '+' then (natDigitsVal rest).map (fun n => (n : Int))
    else if c = '-' then (natDigitsVal rest).map (fun n => -(n : Int))
    else (natDigitsVal (c :: rest)).map (fun n => (n : Int))

/-- The `body` local of `_build_api_error`: the parsed JSON body, or the
fallback dict `{"error": response.reason_phrase or "Unknown error"}`. -/
def effectiveBody (r : Response) : Json :=
  match r.jsonBody with
  | some j => j
  | none => .obj [(("error"), .str (if r.reasonPhrase = "" then ("Unknown error") else r.reasonPhrase))]

/-- Python `body.get(k, default)`: `AttributeError` when `body` is not a dict. -/
def pyDictGet (j : Json) (k : String) (d : Json) : Except PyExc Json :=
  match j with
  | .obj kvs => .ok ((dictFind kvs k).getD d)
  | _ => .error .attributeError

/-- `int(reset_header) if reset_header else None`: `None` and `""` are falsy;
a present non-integer header raises `ValueError`. -/
def pyOptInt (h : Option String) : Except PyExc (Option Int) :=
  match h with
  | some s =>
    if s = "" then .ok none
    else
      match pyInt s with
      | some v => .ok (some v)
      | none => .error .valueError
  | none => .ok none

/-- `client._build_api_error`.  Exceptions out of the `.get` lookups
(`AttributeError` when the parsed body is not a dict) and out of
`int(reset_header)` (`ValueError`) propagate to the caller. -/
def build_api_error (r : Response) : Except PyExc PayzCoreError :=
  match pyDictGet (effectiveBody r) ("error") (.str ("Unknown error")) with
  | .error ex => .error ex
  | .ok message =>
    if r.status = 400 then
      match pyDictGet (effectiveBody r) ("details") .null with
      | .error ex => .error ex
      | .ok details => .ok (ValidationError message details)
    else if r.status = 401 then .ok (AuthenticationError message)
    else if r.status = 403 then .ok (ForbiddenError message)
    else if r.status = 404 then .ok (NotFoundError message)
    else if r.status = 409 then .ok (IdempotencyError message)
    else if r.status = 429 then
      match pyOptInt (headerGet r.headers ("X-RateLimit-Reset")) with
      | .error ex => .error ex
      | .ok retryAfter =>
        .ok (RateLimitError message retryAfter
              (headerGet r.headers ("X-RateLimit-Daily") == some ("true")))
    else .ok { message := message, status := r.status, code := ("api_error") }

/-- What one call of `self._client.request(...)` does on attempt `i`: return a
response, or raise a transport-level exception. `success` marks a 2xx
response together with its parsed body (kept separate only for readability:
a 2xx response with unparseable body is `http` with `jsonBody = none`). -/
inductive AttemptOutcome where
  | success (v : Json)
  | http (r : Response)
  | exc (e : PyExc)

/-- What `HttpClient.request` can raise: a structured `PayzCoreError` (or
subclass), or a bare non-PayzCore exception. -/
inductive Raised where
  | api (e : PayzCoreError)
  | bare (e : PyExc)

/-- Observable effects of one `request` call: how many transport attempts were
made and the argument of each `time.sleep`. -/
structure RunTrace where
  attempts : Nat
  sleeps : List ℚ

def RETRY_BASE_S : ℚ := 0.2

/-- What one iteration of the `for attempt in range(...)` loop in
`HttpClient.request` does with the outcome of its transport call, mirroring
the source: a 2xx response returns its parsed body (`.json()` raising on a
2xx response is caught by the generic `except Exception` and becomes
retryable); a response with status `< 500` and `≠ 429`, or `= 429`, raises
the mapped error — a built `PayzCoreError` escapes through the re-raising
first `except` clause, while an exception raised by `_build_api_error`
itself is caught and becomes retryable; a status `≥ 500` stores the mapped
value as `last_error` and falls through.  `.inl` ends the loop with a result
or a raised error; `.inr` is the captured `last_error` of a retryable
failure. -/
def attemptResult (o : AttemptOutcome) : (Except Raised Json) ⊕ Raised :=
  match o with
  | .success v => .inl (.ok v)
  | .exc e => .inr (.bare e)
  | .http r =>
    if 200 ≤ r.status ∧ r.status < 300 then
      match r.jsonBody with
      | some v => .inl (.ok v)
      | none => .inr (.bare .jsonDecodeError)
    else if r.status < 500 ∧ r.status ≠ 429 then
      match build_api_error r with
      | .ok e => .inl (.error (.api e))
      | .error ex => .inr (.bare ex)
    else if r.status = 429 then
      match build_api_error r with
      | .ok e => .inl (.error (.api e))
      | .error ex => .inr (.bare ex)
    else
      match build_api_error r with
      | .ok e => .inr (.api e)
      | .error ex => .inr (.bare ex)

/-- The retry loop of `HttpClient.request`, unrolled on the remaining
iteration count: sleep `0.2 * 2 ^ (attempt - 1)` before every attempt but
the first, run the attempt, end or continue per `attemptResult`; when the
iterations are exhausted raise the last captured error, else the
`network_error` fallback of the final `raise`. -/
def requestLoop (t : Nat → AttemptOutcome) :
    Nat → Nat → Option Raised → List ℚ → Except Raised Json × RunTrace
  | 0, attempt, lastError, sleeps =>
    ((match lastError with
      | some e => .error e
      | none => .error (.api { message := .str ("Request failed after retries"),
                               status := 0, code := ("network_error") })),
     ⟨attempt, sleeps⟩)
  | remaining + 1, attempt, _lastError, sleeps =>
    let sleeps := if attempt = 0 then sleeps else sleeps ++ [RETRY_BASE_S * 2 ^ (attempt - 1)]
    match attemptResult (t attempt) with
    | .inl res => (res, ⟨attempt + 1, sleeps⟩)
    | .inr cap => requestLoop t remaining (attempt + 1) (some cap) sleeps

/-- `HttpClient.request` with `max_retries = maxRetries` (a non-negative int:
the modelled constructor path never produces a negative retry count), against
a transport whose behaviour on attempt `i` is `t i`. -/
def request (t : Nat → AttemptOutcome) (maxRetries : Nat) : Except Raised Json × RunTrace :=
  requestLoop t (maxRetries + 1) 0 none []

/-- Retryable attempt outcomes per the source: a server-error response
(status ≥ 500) or a transport-level exception. -/
def Retryable (o : AttemptOutcome) : Prop :=
  (∃ r, o = .http r ∧ 500 ≤ r.status) ∨ (∃ e, o = .exc e)

/-- The `last_error` value an attempt leaves behind when it does not end the
loop. -/
def capture (o : AttemptOutcome) : Option Raised :=
  match attemptResult o with
  | .inl _ => none
  | .inr c => some c

/-- The sleep schedule of a run of `n + 1` attempts: `0.2 * 2 ^ (i - 1)`
seconds before attempt `i` for `i = 1, …, n`. -/
def retrySchedule (n : Nat) : List ℚ :=
  (List.range n).map (fun i => RETRY_BASE_S * 2 ^ i)

/-- `message = body.get("error", "Unknown error")` on an object body. -/
def bodyMsg (kvs : List (String × Json)) : Json :=
  (dictFind kvs ("error")).getD (.str ("Unknown error"))

/-- The fields of `parse_webhook`'s dict literal read with `raw[k]`, whose
absence raises `KeyError`. -/
def requiredWebhookFields : List String :=
  [("event"), ("payment_id"), ("external_ref"), ("network"), ("address"),
   ("expected_amount"), ("paid_amount"), ("status"), ("timestamp")]

/-! ## Theorems -/

set_option maxRecDepth 400000 in
/-- Sanity anchor for the hash model: the FIPS 180-4 test vector. -/
theorem sha256_fips_vector :
    bytesToHex (sha256 (strBytes ("abc")))
      = "ba7816bf8f01cfea414140de5dae2223b00361a396177a9cb410ff61f20015ad" := by
  decide

set_option maxRecDepth 400000 in
/-- Sanity anchor for the HMAC model: the RFC 2202-style published vector. -/
theorem hmac_sha256_published_vector :
    hmacSha256Hex (strBytes ("key")) (strBytes ("The quick brown fox jumps over the lazy dog"))
      = "f7bc83f430538424b13298e6aa6fb143ef4d59a14946175997479dbc2d1a3cd8" := by
  decide

/-- Claim C5 counterexample: a failed response whose body is valid JSON but
not an object (here `[]`, status 500) does not yield the generic
`api_error` — `_build_api_error` raises `AttributeError` from
`body.get("error", ...)`. -/
theorem build_api_error_nonobject_raises :
    build_api_error ⟨500, some (.arr []), ("Internal Server Error"), []⟩
      = .error .attributeError := rfl

/-- Claim C5 (amended): for every failed response whose effective body is a
JSON object (the parsed body when it is a dict, else the reason-phrase
fallback dict) the error kind is determined by the status exactly per the
table — 400 validation with details, 401 authentication, 403 forbidden,
404 not found, 409 idempotency, 429 rate limit with `retry_after` from the
reset header and the daily flag iff the daily header is literally `"true"`,
and any other status the generic `api_error` — where for 429 the reset
header must additionally be absent, empty, or an integer literal (else
`int()` raises `ValueError`). -/
theorem build_api_error_status_table (r : Response) (kvs : List (String × Json))
    (hbody : effectiveBody r = .obj kvs) :
    (r.status = 400 → build_api_error r
        = .ok (ValidationError (bodyMsg kvs) ((dictFind kvs ("details")).getD .null))) ∧
    (r.status = 401 → build_api_error r = .ok (AuthenticationError (bodyMsg kvs))) ∧
    (r.status = 403 → build_api_error r = .ok (ForbiddenError (bodyMsg kvs))) ∧
    (r.status = 404 → build_api_error r = .ok (NotFoundError (bodyMsg kvs))) ∧
    (r.status = 409 → build_api_error r = .ok (IdempotencyError (bodyMsg kvs))) ∧
    (∀ ra, r.status = 429 → pyOptInt (headerGet r.headers ("X-RateLimit-Reset")) = .ok ra →
      build_api_error r = .ok (RateLimitError (bodyMsg kvs) ra
        (headerGet r.headers ("X-RateLimit-Daily") == some ("true")))) ∧
    (r.status ∉ ([400, 401, 403, 404, 409, 429] : List Nat) →
      build_api_error r
        = .ok { message := bodyMsg kvs, status := r.status, code := ("api_error") }) := by
  have hmsg : pyDictGet (effectiveBody r) ("error") (.str ("Unknown error"))
      = .ok (bodyMsg kvs) := by
    rw [hbody]; rfl
  have hdet : pyDictGet (effectiveBody r) ("details") .null
      = .ok ((dictFind kvs ("details")).getD .null) := by
    rw [hbody]; rfl
  refine ⟨?_, ?_, ?_, ?_, ?_, ?_, ?_⟩
  · intro h
    unfold build_api_error
    rw [hmsg, hdet]
    simp [h]
  · intro h
    unfold build_api_error
    rw [hmsg]
    simp [h]
  · intro h
    unfold build_api_error
    rw [hmsg]
    simp [h]
  · intro h
    unfold build_api_error
    rw [hmsg]
    simp [h]
  · intro h
    unfold build_api_error
    rw [hmsg]
    simp [h]
  · intro ra h hra
    unfold build_api_error
    rw [hmsg]
    simp [h, hra]
  · intro h
    simp only [List.mem_cons, List.not_mem_nil, or_false] at h
    push_neg at h
    obtain ⟨h1, h2, h3, h4, h5, h6⟩ := h
    unfold build_api_error
    rw [hmsg]
    simp [h1, h2, h3, h4, h5, h6]

/-- Witness for C5: a concrete 404 response with an object body maps to
`NotFoundError` with the body's error message. -/
theorem build_api_error_status_table_witness :
    build_api_error ⟨404, some (.obj [(("error"), .str ("nope"))]), ("Not Found"), []⟩
      = .ok (NotFoundError (.str ("nope"))) :=
  ((build_api_error_status_table
      ⟨404, some (.obj [(("error"), .str ("nope"))]), ("Not Found"), []⟩
      [(("error"), .str ("nope"))] rfl).2.2.2.1) rfl

/-- Unfolding of `requestLoop` at zero remaining iterations. -/
theorem requestLoop_zero (t : Nat → AttemptOutcome) (attempt : Nat)
    (lastError : Option Raised) (sleeps : List ℚ) :
    requestLoop t 0 attempt lastError sleeps =
      ((match lastError with
        | some e => .error e
        | none => .error (.api { message := .str ("Request failed after retries"),
                                 status := 0, code := ("network_error") })),
       ⟨attempt, sleeps⟩) := rfl

/-- Unfolding of `requestLoop` at a positive remaining iteration count. -/
theorem requestLoop_succ (t : Nat → AttemptOutcome) (remaining attempt : Nat)
    (lastError : Option Raised) (sleeps : List ℚ) :
    requestLoop t (remaining + 1) attempt lastError sleeps =
      (let sleeps := if attempt = 0 then sleeps
                     else sleeps ++ [RETRY_BASE_S * 2 ^ (attempt - 1)]
       match attemptResult (t attempt) with
       | .inl res => (res, ⟨attempt + 1, sleeps⟩)
       | .inr cap => requestLoop t remaining (attempt + 1) (some cap) sleeps) := rfl

/-- Unfolding of `requestLoop` at attempt 0: no sleep before the first
attempt. -/
theorem requestLoop_succ_zero (t : Nat → AttemptOutcome) (remaining : Nat)
    (lastError : Option Raised) (sleeps : List ℚ) :
    requestLoop t (remaining + 1) 0 lastError sleeps =
      (match attemptResult (t 0) with
       | .inl res => (res, ⟨1, sleeps⟩)
       | .inr cap => requestLoop t remaining 1 (some cap) sleeps) := rfl

/-- A retryable attempt always continues the loop with a captured error. -/
theorem attemptResult_inr (o : AttemptOutcome) (h : Retryable o) :
    ∃ c, attemptResult o = .inr c ∧ capture o = some c := by
  rcases h with ⟨r, rfl, h5⟩ | ⟨e, rfl⟩
  · have h1 : ¬(200 ≤ r.status ∧ r.status < 300) := by omega
    have h3 : r.status ≠ 429 := by omega
    have h4 : ¬(r.status < 500) := by omega
    cases hb : build_api_error r with
    | ok e =>
      exact ⟨.api e, by simp [attemptResult, h1, h3, h4, hb],
             by simp [capture, attemptResult, h1, h3, h4, hb]⟩
    | error ex =>
      exact ⟨.bare ex, by simp [attemptResult, h1, h3, h4, hb],
             by simp [capture, attemptResult, h1, h3, h4, hb]⟩
  · exact ⟨.bare e, rfl, rfl⟩

/-- Core loop lemma: starting from a positive attempt index with every
remaining attempt retryable, the loop sleeps before every attempt and ends
by raising the capture of the last attempt. -/
theorem requestLoop_retryable_run (t : Nat → AttemptOutcome) :
    ∀ (rem a : Nat) (le : Option Raised) (sl : List ℚ), 0 < a →
      (∀ i, a ≤ i → i ≤ a + rem → Retryable (t i)) →
      ∃ c, capture (t (a + rem)) = some c ∧
        requestLoop t (rem + 1) a le sl =
          (.error c, ⟨a + rem + 1,
            sl ++ (List.range' a (rem + 1)).map (fun i => RETRY_BASE_S * 2 ^ (i - 1))⟩) := by
  intro rem
  induction rem with
  | zero =>
    intro a le sl ha h
    obtain ⟨c, hc, hcap⟩ := attemptResult_inr (t a) (h a le_rfl (by omega))
    have ha' : ¬(a = 0) := by omega
    refine ⟨c, by simpa using hcap, ?_⟩
    rw [requestLoop_succ]
    simp [ha', hc, requestLoop_zero, List.range']
  | succ rem ih =>
    intro a le sl ha h
    obtain ⟨c0, hc0, _⟩ := attemptResult_inr (t a) (h a le_rfl (by omega))
    obtain ⟨c, hc, hloop⟩ := ih (a + 1) (some c0) (sl ++ [RETRY_BASE_S * 2 ^ (a - 1)])
      (by omega) (fun i hi hi2 => h i (by omega) (by omega))
    have hidx : a + 1 + rem = a + (rem + 1) := by omega
    rw [hidx] at hc
    refine ⟨c, hc, ?_⟩
    rw [requestLoop_succ]
    have ha' : ¬(a = 0) := by omega
    simp only [if_neg ha', hc0]
    rw [hloop]
    have hidx2 : a + 1 + rem + 1 = a + (rem + 1) + 1 := by omega
    rw [hidx2]
    have hlist : (sl ++ [RETRY_BASE_S * 2 ^ (a - 1)]) ++
        (List.range' (a + 1) (rem + 1)).map (fun i => RETRY_BASE_S * 2 ^ (i - 1)) =
        sl ++ (List.range' a (rem + 1 + 1)).map (fun i => RETRY_BASE_S * 2 ^ (i - 1)) := by
      rw [List.range'_succ a (rem + 1) 1, List.map_cons]
      simp [List.append_assoc]
    rw [hlist]

/-- With every attempt up to `n` retryable, `request t n` makes `n + 1`
attempts, sleeps the exponential schedule, and raises the last capture. -/
theorem request_retryable_exhausts (t : Nat → AttemptOutcome) (n : Nat)
    (h : ∀ i, i ≤ n → Retryable (t i)) :
    ∃ c, capture (t n) = some c ∧
      request t n = (.error c, ⟨n + 1, retrySchedule n⟩) := by
  cases n with
  | zero =>
    obtain ⟨c, hc, hcap⟩ := attemptResult_inr (t 0) (h 0 le_rfl)
    refine ⟨c, hcap, ?_⟩
    simp only [request]
    rw [requestLoop_succ_zero]
    simp [hc, requestLoop_zero, retrySchedule]
  | succ m =>
    obtain ⟨c0, hc0, _⟩ := attemptResult_inr (t 0) (h 0 (by omega))
    obtain ⟨c, hc, hloop⟩ := requestLoop_retryable_run t m 1 (some c0) []
      (by omega) (fun i h1 h2 => h i (by omega))
    have hidx : 1 + m = m + 1 := by omega
    rw [hidx] at hc
    refine ⟨c, hc, ?_⟩
    simp only [request]
    rw [requestLoop_succ_zero]
    simp only [hc0]
    rw [hloop]
    have hsched : (List.range' 1 (m + 1)).map (fun i => RETRY_BASE_S * 2 ^ (i - 1)) =
        retrySchedule (m + 1) := by
      rw [retrySchedule, List.range'_eq_map_range, List.map_map]
      exact List.map_congr_left (fun i _ => by simp)
    rw [List.nil_append, hsched, show (1 : Nat) + m + 1 = m + 1 + 1 from by omega]

/-- Claim C4: when every attempt up to `max_retries` meets a retryable
outcome — a response with status ≥ 500 or a transport-level exception —
`request` makes exactly `max_retries + 1` attempts, with attempt 0 immediate
and a sleep of `0.2 * 2 ^ (i - 1)` seconds before each attempt `i ≥ 1`, and
after exhaustion raises the error captured from the last attempt. -/
theorem request_exhausts_retries_on_5xx (t : Nat → AttemptOutcome) (maxRetries : Nat)
    (h : ∀ i, i ≤ maxRetries → Retryable (t i)) :
    ∃ c, capture (t maxRetries) = some c ∧
      request t maxRetries = (.error c, ⟨maxRetries + 1, retrySchedule maxRetries⟩) :=
  request_retryable_exhausts t maxRetries h

/-- Witness for C4: three 503 responses with `max_retries = 2` — three
attempts, sleeps `[0.2, 0.4]`, the mapped 503 error raised at the end. -/
theorem request_exhausts_retries_on_5xx_witness :
    ∃ c, capture ((fun _ => AttemptOutcome.http
        ⟨503, some (.obj [(("error"), .str ("upstream"))]), ("Service Unavailable"), []⟩) 2)
        = some c ∧
      request (fun _ => AttemptOutcome.http
        ⟨503, some (.obj [(("error"), .str ("upstream"))]), ("Service Unavailable"), []⟩) 2
        = (.error c, ⟨3, retrySchedule 2⟩) :=
  request_exhausts_retries_on_5xx
    (fun _ => AttemptOutcome.http
      ⟨503, some (.obj [(("error"), .str ("upstream"))]), ("Service Unavailable"), []⟩) 2
    (fun i _ => Or.inl ⟨_, rfl, by norm_num⟩)

/-- Claim C7 counterexample: a transport failing on every attempt
(`max_retries = 2`) surfaces the bare transport exception to the caller —
not a structured `PayzCoreError` of kind `network_error` — because the final
`raise last_error` re-raises whatever exception was captured. -/
theorem request_leaks_bare_transport_exc :
    (request (fun _ => .exc (.transportError ("connection refused"))) 2).1
      = .error (.bare (.transportError ("connection refused"))) := rfl

/-- Claim C7 (amended): failures that produce a mapped HTTP error surface as
structured `PayzCoreError` values, but when every attempt fails at the
transport level (no HTTP response at all) the bare exception of the last
attempt is re-raised unchanged after the retry schedule; the `network_error`
fallback of the final `raise` is not what surfaces. -/
theorem request_transport_failure_surfaces_bare (t : Nat → AttemptOutcome) (n : Nat)
    (h : ∀ i, i ≤ n → ∃ e, t i = .exc e) :
    ∃ e, t n = .exc e ∧
      request t n = (.error (.bare e), ⟨n + 1, retrySchedule n⟩) := by
  obtain ⟨c, hc, hrun⟩ := request_retryable_exhausts t n (fun i hi => Or.inr (h i hi))
  obtain ⟨e, he⟩ := h n le_rfl
  refine ⟨e, he, ?_⟩
  rw [he] at hc
  have : c = .bare e := by
    have h2 : capture (AttemptOutcome.exc e) = some (.bare e) := rfl
    rw [h2] at hc
    exact (Option.some_inj.mp hc).symm
  rw [← this]
  exact hrun

/-- Witness for C7's amended statement at a concrete constant transport. -/
theorem request_transport_failure_surfaces_bare_witness :
    ∃ e, (fun _ => AttemptOutcome.exc (.transportError ("timed out"))) 1 = .exc e ∧
      request (fun _ => AttemptOutcome.exc (.transportError ("timed out"))) 1
        = (.error (.bare e), ⟨2, retrySchedule 1⟩) :=
  request_transport_failure_surfaces_bare
    (fun _ => AttemptOutcome.exc (.transportError ("timed out"))) 1
    (fun _ _ => ⟨.transportError ("timed out"), rfl⟩)

/-- Claim C3 counterexample: a 400 response whose valid-JSON body is not an
object is retried, not raised on the first attempt: `_build_api_error`
raises `AttributeError` from `body.get`, the generic `except Exception`
captures it as retryable, and with `max_retries = 2` the call makes three
attempts, sleeps twice, and surfaces the bare `AttributeError`. -/
theorem request_400_nonobject_body_retries :
    request (fun _ => .http ⟨400, some (.arr []), ("Bad Request"), []⟩) 2
      = (.error (.bare .attributeError), ⟨3, retrySchedule 2⟩) := rfl

/-- Claim C3 (amended): for a first-attempt response with status in
{400, 401, 403, 404, 409, 429} on which `_build_api_error` succeeds (body a
JSON object or unparseable; for 429 a well-formed reset header), `request`
makes exactly one attempt, never sleeps, and raises the mapped error
immediately, for every `max_retries`. -/
theorem request_terminal_on_mapped_4xx (t : Nat → AttemptOutcome) (maxRetries : Nat)
    (r : Response) (e : PayzCoreError)
    (h0 : t 0 = .http r)
    (hs : r.status = 400 ∨ r.status = 401 ∨ r.status = 403 ∨ r.status = 404 ∨
          r.status = 409 ∨ r.status = 429)
    (hb : build_api_error r = .ok e) :
    request t maxRetries = (.error (.api e), ⟨1, []⟩) := by
  have h1 : ¬(200 ≤ r.status ∧ r.status < 300) := by
    rcases hs with h | h | h | h | h | h <;> omega
  have hterm : attemptResult (t 0) = .inl (.error (.api e)) := by
    rw [h0]
    rcases hs with h | h | h | h | h | h <;> simp [attemptResult, h1, hb, h]
  simp only [request]
  rw [requestLoop_succ_zero]
  simp [hterm]

/-- Witness for C3's amended statement: a 404 with object body terminates in
one attempt with the mapped `NotFoundError`, even with retries configured. -/
theorem request_terminal_on_mapped_4xx_witness :
    request (fun _ => AttemptOutcome.http
        ⟨404, some (.obj [(("error"), .str ("missing"))]), ("Not Found"), []⟩) 2
      = (.error (.api (NotFoundError (.str ("missing")))), ⟨1, []⟩) :=
  request_terminal_on_mapped_4xx
    (fun _ => AttemptOutcome.http
      ⟨404, some (.obj [(("error"), .str ("missing"))]), ("Not Found"), []⟩) 2
    ⟨404, some (.obj [(("error"), .str ("missing"))]), ("Not Found"), []⟩
    (NotFoundError (.str ("missing")))
    rfl (Or.inr (Or.inr (Or.inr (Or.inl rfl)))) rfl

/-- Hex characters are ASCII. -/
theorem hexChar_toNat_lt (m : Nat) (h : m < 16) : (hexChar m).toNat < 128 := by
  interval_cases m <;> decide

/-- A hex digest contains only ASCII characters. -/
theorem strIsAscii_bytesToHex (bs : List Nat) : strIsAscii (bytesToHex bs) = true := by
  have hdata : (bytesToHex bs).data = (bs.map byteHexChars).flatten := rfl
  rw [strIsAscii, hdata, List.all_eq_true]
  intro c hc
  simp only [List.mem_flatten, List.mem_map] at hc
  obtain ⟨l, ⟨b, _, rfl⟩, hcl⟩ := hc
  simp only [byteHexChars, List.mem_cons, List.not_mem_nil, or_false] at hcl
  have h16a : b / 16 % 16 < 16 := Nat.mod_lt _ (by norm_num)
  have h16b : b % 16 < 16 := Nat.mod_lt _ (by norm_num)
  rcases hcl with rfl | rfl
  · exact decide_eq_true (hexChar_toNat_lt _ h16a)
  · exact decide_eq_true (hexChar_toNat_lt _ h16b)

/-- UTF-8 concatenation: encoding distributes over string append. -/
theorem strBytes_append (a b : String) : strBytes (a ++ b) = strBytes a ++ strBytes b := by
  simp [strBytes, String.data_append]

/-- Claim C1: with non-empty body, signature and secret, and a timestamp
string parsing to an offset-aware instant within `tolerance_seconds` of
`now`, `verify_signature` returns `True` exactly when the given signature
equals the lowercase-hex HMAC-SHA256, keyed with the UTF-8 bytes of the
secret, of the bytes of `timestamp + "." + body`.  (`hmac.compare_digest`
is modelled functionally as equality; its constant-time execution behaviour
is outside the embedding.) -/
theorem verify_signature_hmac_iff (now : ℚ) (body sig secret ts : String) (tol : Int)
    (hb : body ≠ "") (hsig : sig ≠ "") (hsec : secret ≠ "")
    (dt : PyDateTime) (hparse : parseISO (ts.replace ("Z") ("+00:00")) = some dt)
    (off : Int) (hoff : dt.offset = some off)
    (hfresh : ¬(|now - (dt.naive - (off : ℚ))| > (tol : ℚ))) :
    verify_signature now body sig secret (some ts) tol = .ok true ↔
      sig = hmacSha256Hex (strBytes secret) (strBytes (ts ++ (".") ++ body)) := by
  have hts : ts ≠ "" := by
    intro h
    rw [h] at hparse
    have : parseISO (("" : String).replace ("Z") ("+00:00")) = none := by
      with_unfolding_all rfl
    rw [this] at hparse
    exact Option.noConfusion hparse
  have hcond : ¬(secret = "" ∨ sig = "" ∨ body = "") := by simp [hsec, hsig, hb]
  have hmsgs : strBytes (ts ++ (".")) ++ strBytes body = strBytes (ts ++ (".") ++ body) :=
    (strBytes_append (ts ++ (".")) body).symm
  unfold verify_signature
  rw [if_neg hcond]
  simp only [hparse, hoff, if_neg hts, if_neg hfresh, hmsgs]
  have hE : strIsAscii (hmacSha256Hex (strBytes secret) (strBytes (ts ++ (".") ++ body)))
      = true := strIsAscii_bytesToHex _
  by_cases hA : strIsAscii sig
  · rw [compareDigest, if_pos (by rw [hA, hE]; rfl)]
    constructor
    · intro h
      have := Except.ok.inj h
      exact eq_of_beq this
    · intro h
      rw [h]
      simp
  · rw [compareDigest, if_neg (by rw [hE]; simpa using hA)]
    constructor
    · intro h
      exact Except.noConfusion h
    · intro h
      rw [h] at hA
      exact absurd hE hA

/-- Witness for C1 at a concrete fresh timestamp and non-matching signature:
both sides of the equivalence are false together. -/
theorem verify_signature_hmac_iff_witness :
    (verify_signature 0 ("x") ("ab") ("whsec_test") (some ("1970-01-01T00:00:00Z")) 300
        = .ok true ↔
      ("ab") = hmacSha256Hex (strBytes ("whsec_test"))
        (strBytes ("1970-01-01T00:00:00Z" ++ (".") ++ "x"))) :=
  verify_signature_hmac_iff 0 ("x") ("ab") ("whsec_test") ("1970-01-01T00:00:00Z") 300
    (by decide) (by decide) (by decide)
    ⟨0, some 0⟩ (by with_unfolding_all rfl)
    0 rfl (by with_unfolding_all decide)

/-- Claim C2 counterexample: `verify_signature` can raise.  With a fresh
valid timestamp and a non-ASCII signature string, the comparison
`hmac.compare_digest(signature, expected)` raises `TypeError` — outside the
`try` block that only wraps the timestamp handling — so the call does not
return a boolean. -/
theorem verify_signature_nonascii_raises :
    verify_signature 0 ("x") ("é") ("s") (some ("1970-01-01T00:00:00Z")) 300
      = .error .typeError := by
  with_unfolding_all rfl

/-- Claim C2 (amended): `verify_signature` never raises provided the
signature that reaches the final comparison is ASCII-only (a non-ASCII
signature makes `hmac.compare_digest` raise `TypeError`), and it returns
`False` — not an exception — for an empty body, empty signature, empty
secret, missing (or empty) timestamp header, a timestamp that does not
parse, a timestamp that parses without a UTC offset (naive), and a
timestamp farther than `tolerance_seconds` from the current time. -/
theorem verify_signature_false_cases (now : ℚ) (body sig secret : String)
    (ts : Option String) (tol : Int) :
    (strIsAscii sig = true → ∃ b, verify_signature now body sig secret ts tol = .ok b) ∧
    (body = "" ∨ sig = "" ∨ secret = "" ∨ ts = none ∨ ts = some ("") →
      verify_signature now body sig secret ts tol = .ok false) ∧
    (∀ t, ts = some t → parseISO (t.replace ("Z") ("+00:00")) = none →
      verify_signature now body sig secret ts tol = .ok false) ∧
    (∀ t dt, ts = some t → parseISO (t.replace ("Z") ("+00:00")) = some dt →
      dt.offset = none → verify_signature now body sig secret ts tol = .ok false) ∧
    (∀ t dt off, ts = some t → parseISO (t.replace ("Z") ("+00:00")) = some dt →
      dt.offset = some off → |now - (dt.naive - (off : ℚ))| > (tol : ℚ) →
      verify_signature now body sig secret ts tol = .ok false) := by
  refine ⟨?_, ?_, ?_, ?_, ?_⟩
  · intro hA
    unfold verify_signature
    by_cases h1 : secret = "" ∨ sig = "" ∨ body = ""
    · exact ⟨false, by rw [if_pos h1]⟩
    rw [if_neg h1]
    cases ts with
    | none => exact ⟨false, rfl⟩
    | some t =>
      dsimp only
      by_cases ht : t = ""
      · exact ⟨false, by rw [if_pos ht]⟩
      rw [if_neg ht]
      cases hp : parseISO (t.replace ("Z") ("+00:00")) with
      | none => exact ⟨false, rfl⟩
      | some dt =>
        dsimp only
        cases hoff : dt.offset with
        | none => exact ⟨false, rfl⟩
        | some off =>
          dsimp only
          by_cases hfr : |now - (dt.naive - (off : ℚ))| > (tol : ℚ)
          · exact ⟨false, by rw [if_pos hfr]⟩
          refine ⟨sig == hmacSha256Hex (strBytes secret) (strBytes (t ++ (".")) ++ strBytes body), ?_⟩
          rw [if_neg hfr, compareDigest,
              if_pos (by rw [hA]; simp [hmacSha256Hex, strIsAscii_bytesToHex])]
  · intro h
    unfold verify_signature
    rcases h with h | h | h | h | h
    · rw [if_pos (by simp [h])]
    · rw [if_pos (by simp [h])]
    · rw [if_pos (by simp [h])]
    · subst h
      by_cases h1 : secret = "" ∨ sig = "" ∨ body = ""
      · rw [if_pos h1]
      · rw [if_neg h1]
    · subst h
      by_cases h1 : secret = "" ∨ sig = "" ∨ body = ""
      · rw [if_pos h1]
      · rw [if_neg h1]
        dsimp only
        rw [if_pos rfl]
  · intro t hts hp
    subst hts
    unfold verify_signature
    by_cases h1 : secret = "" ∨ sig = "" ∨ body = ""
    · rw [if_pos h1]
    rw [if_neg h1]
    dsimp only
    by_cases ht : t = ""
    · rw [if_pos ht]
    rw [if_neg ht]
    simp only [hp]
  · intro t dt hts hp hoff
    subst hts
    unfold verify_signature
    by_cases h1 : secret = "" ∨ sig = "" ∨ body = ""
    · rw [if_pos h1]
    rw [if_neg h1]
    dsimp only
    by_cases ht : t = ""
    · rw [if_pos ht]
    rw [if_neg ht]
    simp only [hp, hoff]
  · intro t dt off hts hp hoff hfr
    subst hts
    unfold verify_signature
    by_cases h1 : secret = "" ∨ sig = "" ∨ body = ""
    · rw [if_pos h1]
    rw [if_neg h1]
    dsimp only
    by_cases ht : t = ""
    · rw [if_pos ht]
    rw [if_neg ht]
    simp only [hp, hoff, if_pos hfr]

/-- Witness for C2's amended statement: empty body returns `False`. -/
theorem verify_signature_false_cases_witness :
    verify_signature 0 ("") ("s") ("k") none 300 = .ok false :=
  (verify_signature_false_cases 0 ("") ("s") ("k") none 300).2.1 (Or.inl rfl)

/-- Claim C6: `construct_event` raises `WebhookSignatureError` when
verification returns `False`; when verification succeeds and the body is
not valid JSON it raises `WebhookSignatureError` with the distinct
`"Invalid webhook payload"` message; when verification succeeds and
`parse_webhook` succeeds it returns exactly `parse_webhook`'s result. -/
theorem construct_event_cases (now : ℚ) (body sig secret : String)
    (ts : Option String) (tol : Int) :
    (verify_signature now body sig secret ts tol = .ok false →
      construct_event now body sig secret ts tol
        = .error (.webhookSignatureError ("Webhook signature verification failed"))) ∧
    (verify_signature now body sig secret ts tol = .ok true → jsonLoads body = none →
      construct_event now body sig secret ts tol
        = .error (.webhookSignatureError ("Invalid webhook payload"))) ∧
    (∀ r, verify_signature now body sig secret ts tol = .ok true →
      parse_webhook body = .ok r →
      construct_event now body sig secret ts tol = .ok r) := by
  refine ⟨?_, ?_, ?_⟩
  · intro hv
    simp [construct_event, hv]
  · intro hv hj
    simp [construct_event, hv, parse_webhook, hj]
  · intro r hv hp
    simp [construct_event, hv, hp]

/-- Witness for C6: an empty signature fails verification and surfaces the
signature-failure error. -/
theorem construct_event_cases_witness :
    construct_event 0 ("x") ("") ("k") none 300
      = .error (.webhookSignatureError ("Webhook signature verification failed")) :=
  (construct_event_cases 0 ("x") ("") ("k") none 300).1 rfl

/-- Claim C8: on a JSON-object body missing any of the required fields,
`parse_webhook` raises `KeyError` for some (the first, in source order)
missing required field and returns nothing — no required field is
defaulted. -/
theorem parse_webhook_missing_required (body : String) (kvs : List (String × Json)) (k : String)
    (hload : jsonLoads body = some (.obj kvs))
    (hk : k ∈ requiredWebhookFields)
    (hmiss : dictFind kvs k = none) :
    ∃ k2, k2 ∈ requiredWebhookFields ∧ dictFind kvs k2 = none ∧
      parse_webhook body = .error (.keyError k2) := by
  cases h1 : dictFind kvs ("event") with
  | none =>
    exact ⟨("event"), by simp [requiredWebhookFields], h1, by simp [parse_webhook, hload, h1]⟩
  | some v1 =>
  cases h2 : dictFind kvs ("payment_id") with
  | none =>
    exact ⟨("payment_id"), by simp [requiredWebhookFields], h2,
           by simp [parse_webhook, hload, h1, h2]⟩
  | some v2 =>
  cases h3 : dictFind kvs ("external_ref") with
  | none =>
    exact ⟨("external_ref"), by simp [requiredWebhookFields], h3,
           by simp [parse_webhook, hload, h1, h2, h3]⟩
  | some v3 =>
  cases h4 : dictFind kvs ("network") with
  | none =>
    exact ⟨("network"), by simp [requiredWebhookFields], h4,
           by simp [parse_webhook, hload, h1, h2, h3, h4]⟩
  | some v4 =>
  cases h5 : dictFind kvs ("address") with
  | none =>
    exact ⟨("address"), by simp [requiredWebhookFields], h5,
           by simp [parse_webhook, hload, h1, h2, h3, h4, h5]⟩
  | some v5 =>
  cases h6 : dictFind kvs ("expected_amount") with
  | none =>
    exact ⟨("expected_amount"), by simp [requiredWebhookFields], h6,
           by simp [parse_webhook, hload, h1, h2, h3, h4, h5, h6]⟩
  | some v6 =>
  cases h7 : dictFind kvs ("paid_amount") with
  | none =>
    exact ⟨("paid_amount"), by simp [requiredWebhookFields], h7,
           by simp [parse_webhook, hload, h1, h2, h3, h4, h5, h6, h7]⟩
  | some v7 =>
  cases h8 : dictFind kvs ("status") with
  | none =>
    exact ⟨("status"), by simp [requiredWebhookFields], h8,
           by simp [parse_webhook, hload, h1, h2, h3, h4, h5, h6, h7, h8]⟩
  | some v8 =>
  cases h9 : dictFind kvs ("timestamp") with
  | none =>
    exact ⟨("timestamp"), by simp [requiredWebhookFields], h9,
           by simp [parse_webhook, hload, h1, h2, h3, h4, h5, h6, h7, h8, h9]⟩
  | some v9 =>
    exfalso
    simp only [requiredWebhookFields, List.mem_cons, List.not_mem_nil, or_false] at hk
    rcases hk with rfl | rfl | rfl | rfl | rfl | rfl | rfl | rfl | rfl <;> simp_all

/-- Witness for C8: a body with only `event` fails with a `KeyError` on some
missing required field. -/
theorem parse_webhook_missing_required_witness :
    ∃ k2, k2 ∈ requiredWebhookFields ∧ dictFind [(("event"), Json.str ("x"))] k2 = none ∧
      parse_webhook ("\x7b\"event\": \"x\"\x7d") = .error (.keyError k2) :=
  parse_webhook_missing_required ("\x7b\"event\": \"x\"\x7d") [(("event"), Json.str ("x"))]
    ("payment_id") rfl (by simp [requiredWebhookFields]) rfl

/-- Claim C9 counterexample: a body whose `network` is the unknown string
`"SOLANA"` but which lacks the required fields does *not* parse — the claim
as stated (for every body with an unknown network value, parsing succeeds)
fails; `raw["event"]` raises `KeyError`. -/
theorem parse_webhook_unknown_network_alone_fails :
    parse_webhook ("\x7b\"network\": \"SOLANA\"\x7d") = .error (.keyError ("event")) := rfl

/-- Claim C9 (amended): on a JSON-object body carrying all required fields,
`parse_webhook` succeeds even when `network` or `token` is outside the known
enumerations, preserves the raw values unchanged, defaults `token` to
`"USDT"` when absent, and emits the unknown-network (resp. unknown-token)
`logger.warning` diagnostic exactly when the raw value is truthy and not in
the enumeration — in particular for any non-empty unknown string such as
`"SOLANA"`. -/
theorem parse_webhook_unknown_values (body : String) (kvs : List (String × Json))
    (ev pid xref nw addr ea pa st tsv : Json)
    (hload : jsonLoads body = some (.obj kvs))
    (h1 : dictFind kvs ("event") = some ev)
    (h2 : dictFind kvs ("payment_id") = some pid)
    (h3 : dictFind kvs ("external_ref") = some xref)
    (h4 : dictFind kvs ("network") = some nw)
    (h5 : dictFind kvs ("address") = some addr)
    (h6 : dictFind kvs ("expected_amount") = some ea)
    (h7 : dictFind kvs ("paid_amount") = some pa)
    (h8 : dictFind kvs ("status") = some st)
    (h9 : dictFind kvs ("timestamp") = some tsv) :
    parse_webhook body = .ok
      ({ event := ev, payment_id := pid, external_ref := xref, network := nw
       , token := (dictFind kvs ("token")).getD (.str ("USDT"))
       , address := addr, expected_amount := ea, paid_amount := pa
       , tx_hash := (dictFind kvs ("tx_hash")).getD .null
       , status := st
       , paid_at := (dictFind kvs ("paid_at")).getD .null
       , metadata := (dictFind kvs ("metadata")).getD (.obj [])
       , timestamp := tsv
       , external_order_id := optJField kvs ("external_order_id")
       , buyer_email := optJField kvs ("buyer_email")
       , buyer_name := optJField kvs ("buyer_name")
       , buyer_note := optJField kvs ("buyer_note")
       , payment_link_id := optJField kvs ("payment_link_id")
       , payment_link_slug := optJField kvs ("payment_link_slug") },
       (if jsonTruthy nw && !(jsonInStrList nw SUPPORTED_NETWORKS)
        then [(("[PayzCore] Unknown network in webhook: %s"), nw)] else []) ++
       (if jsonTruthy ((dictFind kvs ("token")).getD (.str ("")))
            && !(jsonInStrList ((dictFind kvs ("token")).getD (.str (""))) SUPPORTED_TOKENS)
        then [(("[PayzCore] Unknown token in webhook: %s"),
               (dictFind kvs ("token")).getD (.str ("")))] else [])) ∧
    (∀ s, nw = .str s → s ≠ "" → s ∉ SUPPORTED_NETWORKS →
      (("[PayzCore] Unknown network in webhook: %s"), nw) ∈
        ((if jsonTruthy nw && !(jsonInStrList nw SUPPORTED_NETWORKS)
          then [(("[PayzCore] Unknown network in webhook: %s"), nw)] else []) ++
         (if jsonTruthy ((dictFind kvs ("token")).getD (.str ("")))
              && !(jsonInStrList ((dictFind kvs ("token")).getD (.str (""))) SUPPORTED_TOKENS)
          then [(("[PayzCore] Unknown token in webhook: %s"),
                 (dictFind kvs ("token")).getD (.str ("")))] else []))) := by
  constructor
  · simp only [parse_webhook, hload, h1, h2, h3, h4, h5, h6, h7, h8, h9, Option.getD_some]
  · intro s hnw hne hmem
    subst hnw
    have ht : jsonTruthy (Json.str s) = true := by
      simp [jsonTruthy, hne]
    have hin : jsonInStrList (Json.str s) SUPPORTED_NETWORKS = false := by
      simp [jsonInStrList]
      exact fun hc => hmem (by simpa using hc)
    rw [ht, hin]
    simp

set_option maxRecDepth 1000000 in
/-- Witness for C9's amended statement: a complete body with
`network = "SOLANA"` parses, preserves the raw value, defaults the token,
and emits exactly the unknown-network diagnostic. -/
theorem parse_webhook_unknown_values_witness :
    parse_webhook ("\x7b\"event\":\"e\",\"payment_id\":\"p\",\"external_ref\":\"r\",\"network\":\"SOLANA\",\"address\":\"a\",\"expected_amount\":\"1\",\"paid_amount\":\"1\",\"status\":\"s\",\"timestamp\":\"t\"\x7d")
      = .ok
        (⟨.str ("e"), .str ("p"), .str ("r"), .str ("SOLANA"), .str ("USDT"), .str ("a"),
          .str ("1"), .str ("1"), .null, .str ("s"), .null, .obj [], .str ("t"),
          none, none, none, none, none, none⟩,
         [(("[PayzCore] Unknown network in webhook: %s"), Json.str ("SOLANA"))]) :=
  (parse_webhook_unknown_values
    ("\x7b\"event\":\"e\",\"payment_id\":\"p\",\"external_ref\":\"r\",\"network\":\"SOLANA\",\"address\":\"a\",\"expected_amount\":\"1\",\"paid_amount\":\"1\",\"status\":\"s\",\"timestamp\":\"t\"\x7d")
    [(("event"), .str ("e")), (("payment_id"), .str ("p")), (("external_ref"), .str ("r")),
     (("network"), .str ("SOLANA")), (("address"), .str ("a")),
     (("expected_amount"), .str ("1")), (("paid_amount"), .str ("1")),
     (("status"), .str ("s")), (("timestamp"), .str ("t"))]
    (.str ("e")) (.str ("p")) (.str ("r")) (.str ("SOLANA")) (.str ("a"))
    (.str ("1")) (.str ("1")) (.str ("s")) (.str ("t"))
    rfl rfl rfl rfl rfl rfl rfl rfl rfl rfl).1

set_option maxRecDepth 1000000 in
/-- Claim C10: an input whose signature is the correct HMAC for its body and
whose body is valid JSON but lacks `payment_id` makes `construct_event`
raise `KeyError` — an exception outside the documented
`WebhookSignatureError` failure mode — since only `json.JSONDecodeError` is
caught around `parse_webhook`. -/
theorem construct_event_keyerror_leak :
    construct_event 0 ("\x7b\"event\": \"x\"\x7d")
      (hmacSha256Hex (strBytes ("whsec_test"))
        (strBytes ("1970-01-01T00:00:00Z" ++ (".") ++ "\x7b\"event\": \"x\"\x7d")))
      ("whsec_test") (some ("1970-01-01T00:00:00Z")) 300
      = .error (.keyError ("payment_id")) := by
  with_unfolding_all rfl
